import Mathlib

/-!
Verification of the git sync module (`pym/portage/sync/modules/git/git.py`):
a shallow embedding of `GitSync.new`, `GitSync.nuke_repo`,
`GitSync.sync_branch_update`, `GitSync.sync_uri_check`,
`GitSync.simple_update` and `GitSync.update`, with the external
collaborators (the `git` tool, `rm`, the filesystem) modelled as an
environment of observed results, and the issued external commands
collected as an explicit trace.
-/

namespace GitSync

/-- Python runtime errors that the module can raise (uncaught) while the
embedded code runs: `subprocess.CalledProcessError` escaping an uncaught
`check_output`, `IndexError` from indexing a too-short list, and
`AttributeError` from calling a string method on a list. -/
inductive PyError where
  | calledProcessError
  | indexError
  | attributeError
deriving DecidableEq

/-- A Python computation either returns a value or raises an error that
propagates to the caller. -/
abbrev PyResult (α : Type) := Except PyError α

instance {ε α : Type} [DecidableEq ε] [DecidableEq α] : DecidableEq (Except ε α) := fun x y =>
  match x, y with
  | .ok a, .ok b =>
    if h : a = b then isTrue (by rw [h])
    else isFalse (by intro hh; cases hh; exact h rfl)
  | .error a, .error b =>
    if h : a = b then isTrue (by rw [h])
    else isFalse (by intro hh; cases hh; exact h rfl)
  | .ok _, .error _ => isFalse (fun hh => Except.noConfusion hh)
  | .error _, .ok _ => isFalse (fun hh => Except.noConfusion hh)

/-- The external commands the module can issue, abstracted to their
identity (the exact argument strings are modelled separately where a
claim depends on them, see `new_git_cmd`). -/
inductive Cmd where
  /-- `git branch --all` (the branch-listing probe). -/
  | branchAll
  /-- `git remote -v` (the remote-listing probe). -/
  | remoteV
  /-- `git checkout <branch>` / `git checkout -b <branch> --track ...`. -/
  | checkout
  /-- `git rev-list --max-count=1 HEAD` (the head-revision query). -/
  | revList
  /-- `git pull ...` (the incremental update). -/
  | pull
  /-- `git clone ...` (the initial clone). -/
  | clone
  /-- `rm -rf <location>` (the mirror teardown). -/
  | rmrf
deriving DecidableEq

/-- Split a character list at every occurrence of `sep`, keeping empty
pieces — the semantics of Python's `s.split(sep)` with an explicit
separator (`"".split(sep) == [""]`, a trailing separator yields a final
empty piece). -/
def pySplitSepData (sep : Char) : List Char → List (List Char)
  | [] => [[]]
  | c :: rest =>
    if c = sep then [] :: pySplitSepData sep rest
    else
      match pySplitSepData sep rest with
      | [] => [[c]]
      | l :: ls => (c :: l) :: ls

/-- Python's `s.split("\n")`: every line of `s`, empty lines kept. -/
def pySplitNl (s : String) : List String :=
  (pySplitSepData '\n' s.data).map String.mk

/-- Split a character list at every whitespace character, keeping empty
pieces (helper for `pySplit`). -/
def pySplitWsData : List Char → List (List Char)
  | [] => [[]]
  | c :: rest =>
    if c.isWhitespace then [] :: pySplitWsData rest
    else
      match pySplitWsData rest with
      | [] => [[c]]
      | l :: ls => (c :: l) :: ls

/-- Python's `s.split()` (no argument): split on runs of whitespace,
discarding empty pieces, so `"".split() == []` and leading or trailing
whitespace produces no empty fields. In particular
`s.strip().split() == s.split()`, which is why `GitSync` line 103's
`branchline.strip().split()` is embedded as `pySplit branchline`. -/
def pySplit (s : String) : List String :=
  ((pySplitWsData s.data).filter (fun w => !w.isEmpty)).map String.mk

/-- Whether the first list is a prefix of the second (character-wise
equality). -/
def pyIsPrefixOfData : List Char → List Char → Bool
  | [], _ => true
  | _ :: _, [] => false
  | a :: as, b :: bs => a == b && pyIsPrefixOfData as bs

/-- Containment of `sub` at some position of `h` (helper for
`pyContains`). -/
def pyContainsData (sub : List Char) : List Char → Bool
  | [] => pyIsPrefixOfData sub []
  | c :: rest => pyIsPrefixOfData sub (c :: rest) || pyContainsData sub rest

/-- Python's `sub in hay` substring test. -/
def pyContains (hay sub : String) : Bool :=
  pyContainsData sub.data hay.data

/-- Python's `s == opt` where `opt` is a possibly-`None` string
(`"x" == None` is `False`). -/
def pyEqOpt (s : String) (o : Option String) : Bool :=
  match o with
  | some t => s == t
  | none => false

/-- Python's `s.startswith(pre)`. -/
def pyStartswith (s pre : String) : Bool :=
  pyIsPrefixOfData pre.data s.data

/-- The repository descriptor, the fields of `self.repo` (and of
`self.settings`) that the module reads.  Fields the Python code compares
against `None` are `Option`s. -/
structure Repo where
  /-- `self.repo.location`. -/
  location : Option String
  /-- `self.repo.sync_uri`. -/
  sync_uri : Option String
  /-- `self.repo.sync_branch`. -/
  sync_branch : Option String
  /-- `self.repo.sync_depth`. -/
  sync_depth : Option Nat
  /-- `self.repo.auto_sync_enforcing` (a string from repos.conf, or unset). -/
  auto_sync_enforcing : Option String
deriving DecidableEq

/-- Results the external collaborators produce for one `update`
invocation: captured output (or `CalledProcessError`) of each
`subprocess.check_output` probe, and the exit status of each spawned
shell command.  `git checkout` results are not recorded: in
`sync_branch_update` both the success and the `CalledProcessError`
branch of a checkout continue identically into `simple_update`. -/
structure Env where
  /-- Output of `git remote -v` (line 137), or `CalledProcessError`. -/
  remote_listing : Except Unit String
  /-- Output of `git branch --all` (line 98), or `CalledProcessError`. -/
  branch_listing : Except Unit String
  /-- Output of the first `git rev-list --max-count=1 HEAD` (line 161),
  or `CalledProcessError`. -/
  rev_before : Except Unit String
  /-- Exit status of `git pull` (line 164). -/
  pull_exit : Nat
  /-- Output of the second `git rev-list --max-count=1 HEAD` (line 173),
  or `CalledProcessError`. -/
  rev_after : Except Unit String
  /-- Whether the `os.makedirs` block of `new` (lines 40-46) completed
  without `IOError`. -/
  mkdir_ok : Bool
  /-- Exit status of `git clone` (line 68). -/
  clone_exit : Nat
  /-- Exit status of `rm -rf` (line 82). -/
  rm_exit : Nat
deriving DecidableEq

/-- Modelled from the spec: `os.EX_NOTFOUND`, "a reserved 'not found'
code when the revision/remote/branch probe itself cannot run (distinct
from a real command failure)".  The constant itself comes from the
`portage.os` wrapper, which is not under `src/`; the concrete value is
a representative non-zero code, and no theorem depends on the value
beyond its being distinct from `os.EX_OK = 0`. -/
def os_EX_NOTFOUND : Nat := 79

/-- `GitSync.simple_update` (lines 146-176).  Returns the `(status,
changed)` outcome — or the escaped Python error — paired with the
trace of external commands issued.  The two `subprocess.check_output`
revision queries (lines 161 and 173) are wrapped in no `try`, so a
`CalledProcessError` from either propagates to the caller.  The textual
options of the pull command (`--quiet`, `sync-git-pull-extra-opts`) do
not affect the outcome and are not modelled. -/
def simple_update (e : Env) : PyResult (Nat × Bool) × List Cmd :=
  match e.rev_before with
  | .error _ => (.error .calledProcessError, [Cmd.revList])
  | .ok previous_rev =>
    if e.pull_exit ≠ 0 then
      (.ok (e.pull_exit, false), [Cmd.revList, Cmd.pull])
    else
      match e.rev_after with
      | .error _ => (.error .calledProcessError, [Cmd.revList, Cmd.pull, Cmd.revList])
      | .ok current_rev =>
        (.ok (0, current_rev != previous_rev), [Cmd.revList, Cmd.pull, Cmd.revList])

/-- The loop of `GitSync.sync_branch_update` (lines 102-129) over the
lines of the `git branch --all` output.  Per line (Python evaluation
order preserved):
* `blist = branchline.strip().split()` — `pySplit` (strip before a
  no-argument split is a no-op);
* `blist[0]` raises `IndexError` on an empty line (e.g. the trailing
  empty line every real `git branch --all` output produces);
* `blist[0] == "*"`: if `blist[1]` equals `sync_branch`, run
  `simple_update`; otherwise continue with the next line;
* elif `"/" not in blist[0]`: if it equals `sync_branch`, issue
  `git checkout` (line 112) — on success and on `CalledProcessError`
  alike, run `simple_update`; otherwise continue;
* elif `not "HEAD" in blist[0]` (`"/" in blist[0]` holds here): line
  117 executes `branchl = blist.split("/")` — but `blist` is a `list`,
  which has no `split` method, so an `AttributeError` is raised; the
  tracking-branch creation of lines 119-126 is unreachable;
* after the loop (line 129): run `simple_update`. -/
def sync_branch_update_lines (sb : Option String) (e : Env) :
    List String → PyResult (Nat × Bool) × List Cmd
  | [] => simple_update e
  | branchline :: rest =>
    let blist := pySplit branchline
    match blist[0]? with
    | none => (.error .indexError, [])
    | some b0 =>
      if b0 = "*" then
        match blist[1]? with
        | none => (.error .indexError, [])
        | some b1 =>
          if pyEqOpt b1 sb then simple_update e
          else sync_branch_update_lines sb e rest
      else if pyContains b0 "/" = false then
        if pyEqOpt b0 sb then
          let t := simple_update e
          (t.1, Cmd.checkout :: t.2)
        else sync_branch_update_lines sb e rest
      else if pyContains b0 "HEAD" = false then
        (.error .attributeError, [])
      else sync_branch_update_lines sb e rest

/-- `GitSync.sync_branch_update` (lines 92-129): issue `git branch
--all`; on `CalledProcessError` return `(os.EX_NOTFOUND, True)` (line
101); otherwise scan the output lines with
`sync_branch_update_lines`. -/
def sync_branch_update (sb : Option String) (e : Env) : PyResult (Nat × Bool) × List Cmd :=
  match e.branch_listing with
  | .error _ => (.ok (os_EX_NOTFOUND, true), [Cmd.branchAll])
  | .ok rawbranch =>
    let t := sync_branch_update_lines sb e (pySplitNl rawbranch)
    (t.1, Cmd.branchAll :: t.2)

/-- The loop of `GitSync.sync_uri_check` (lines 141-144) over the lines
of the `git remote -v` output.  Per line: `rlist = remoteline.split()`;
`rlist[0]` raises `IndexError` on an empty line; if `rlist[0] ==
"origin"` then `rlist[2]` is evaluated (raising `IndexError` when the
line has fewer than three fields) and if it equals `"(fetch)"` the
function returns `sync_uri == rlist[1]`.  Falling off the loop returns
Python's implicit `None`, modelled as `Option.none`. -/
def sync_uri_check_lines (sync_uri : String) : List String → PyResult (Option Bool)
  | [] => .ok none
  | remoteline :: rest =>
    let rlist := pySplit remoteline
    match rlist[0]? with
    | none => .error .indexError
    | some r0 =>
      if r0 = "origin" then
        match rlist[2]? with
        | none => .error .indexError
        | some r2 =>
          if r2 = "(fetch)" then
            match rlist[1]? with
            | none => .error .indexError
            | some r1 => .ok (some (sync_uri == r1))
          else sync_uri_check_lines sync_uri rest
      else sync_uri_check_lines sync_uri rest

/-- `GitSync.sync_uri_check` (lines 131-144): issue `git remote -v`; on
`CalledProcessError` return `False` (line 140); otherwise scan the
output lines with `sync_uri_check_lines`.  The result is `some b` for a
returned boolean, `none` for Python's implicit `None`. -/
def sync_uri_check (sync_uri : String) (remote_listing : Except Unit String) :
    PyResult (Option Bool) :=
  match remote_listing with
  | .error _ => .ok (some false)
  | .ok rawremote => sync_uri_check_lines sync_uri (pySplitNl rawremote)

/-- The control flow of `GitSync.new` (lines 36-76): `(1, False)` on an
`IOError` from `os.makedirs`; `(exitcode, False)` when `git clone`
exits non-zero; `(os.EX_OK, True)` otherwise.  The clone command text
is modelled separately by `new_git_cmd`. -/
def new_outcome (e : Env) : PyResult (Nat × Bool) × List Cmd :=
  if !e.mkdir_ok then (.ok (1, false), [])
  else if e.clone_exit ≠ 0 then (.ok (e.clone_exit, false), [Cmd.clone])
  else (.ok (0, true), [Cmd.clone])

/-- `GitSync.nuke_repo` (lines 78-90): issue `rm -rf <location>`;
`(exitcode, False)` when it exits non-zero, `(os.EX_OK, True)`
otherwise. -/
def nuke_repo (e : Env) : PyResult (Nat × Bool) × List Cmd :=
  if e.rm_exit ≠ 0 then (.ok (e.rm_exit, false), [Cmd.rmrf])
  else (.ok (0, true), [Cmd.rmrf])

/-- Lines 48-50 of `GitSync.new`: `if sync_uri.startswith("file://"):
sync_uri = sync_uri[6:]` — the slice drops the first SIX characters of
the seven-character prefix `"file://"`. -/
def strip_file_uri (u : String) : String :=
  if pyStartswith u "file://" then String.mk (u.data.drop 6) else u

/-- Lines 52-63 of `GitSync.new`: the successive `git_cmd_opts +=`
concatenations, at the granularity of command-line tokens.  `quiet` is
`self.settings.get("PORTAGE_QUIET") == "1"`; `extra` stands for the
verbatim tokens of `sync-git-clone-extra-opts` (an empty list when the
option is absent). -/
def git_clone_opts (quiet : Bool) (depth : Option Nat) (extra : List String)
    (branch : Option String) : List String :=
  ((((if quiet then ["--quiet"] else []) ++
      (match depth with
       | some n => ["--depth", toString n, "--no-single-branch"]
       | none => [])) ++
     extra) ++
    (match branch with
     | some b => ["-b", b]
     | none => []))

/-- Line 64 of `GitSync.new`: `git_cmd = "%s clone%s %s ." % (bin,
git_cmd_opts, uri)` with the `file://`-stripped `sync_uri` of lines
48-50 (shell quoting not modelled). -/
def new_git_cmd (quiet : Bool) (depth : Option Nat) (extra : List String)
    (branch : Option String) (uri : String) : List String :=
  ["git", "clone"] ++ git_clone_opts quiet depth extra branch ++ [strip_file_uri uri, "."]

/-- Follows the spec's words (§6): "clone command = `<tool> clone
[--quiet] [--depth <N> --no-single-branch] [<extra-clone-opts>]
[-b <branch>] <uri> .`", each bracketed group present exactly when the
corresponding descriptor field is configured, in that fixed order. -/
def clone_cmd_spec (quiet : Bool) (depth : Option Nat) (extra : List String)
    (branch : Option String) (uri : String) : List String :=
  ["git", "clone"]
  ++ (if quiet then ["--quiet"] else [])
  ++ (match depth with
      | some n => ["--depth", toString n, "--no-single-branch"]
      | none => [])
  ++ extra
  ++ (match branch with
      | some b => ["-b", b]
      | none => [])
  ++ [uri, "."]

/-- The tail of `GitSync.update` (lines 193-197): `sync_branch_update`
when `sync_branch` and `location` are both set, else `simple_update`. -/
def update_tail (r : Repo) (e : Env) : PyResult (Nat × Bool) × List Cmd :=
  match r.sync_branch, r.location with
  | some _, some _ => sync_branch_update r.sync_branch e
  | _, _ => simple_update e

/-- `GitSync.update` (lines 178-197), the entry point of a sync on an
existing mirror (the `synchronize` boundary for the update half):
* `simple_update` when `auto_sync_enforcing` is `"no"` or unset;
* otherwise, when `sync_uri` and `location` are both set, run
  `sync_uri_check` (an escaped Python error propagates); `if not
  self.sync_uri_check():` — any result other than `True` (i.e. `False`
  or `None`) runs `nuke_repo` (result discarded) and returns
  `self.new()`'s outcome;
* otherwise fall through to `update_tail`. -/
def update (r : Repo) (e : Env) : PyResult (Nat × Bool) × List Cmd :=
  if r.auto_sync_enforcing = some "no" ∨ r.auto_sync_enforcing = none then
    simple_update e
  else
    match r.sync_uri, r.location with
    | some u, some _ =>
      match sync_uri_check u e.remote_listing with
      | .error pe => (.error pe, [Cmd.remoteV])
      | .ok v =>
        if v ≠ some true then
          let n := nuke_repo e
          let c := new_outcome e
          (c.1, Cmd.remoteV :: (n.2 ++ c.2))
        else
          let t := update_tail r e
          (t.1, Cmd.remoteV :: t.2)
    | _, _ => update_tail r e

end GitSync

namespace GitSync

/-- A baseline collaborator environment for concrete instances: every
probe succeeds, every command exits 0, the head revision is `"rev0"`
before and after the pull. -/
def envBase : Env :=
  { remote_listing := .ok "", branch_listing := .ok "", rev_before := .ok "rev0",
    pull_exit := 0, rev_after := .ok "rev0", mkdir_ok := true, clone_exit := 0,
    rm_exit := 0 }

/-- A baseline descriptor for concrete instances. -/
def repoBase : Repo :=
  { location := some "/m", sync_uri := some "https://x/repo", sync_branch := none,
    sync_depth := none, auto_sync_enforcing := none }

theorem pyIsPrefixOfData_append_self (l r : List Char) :
    pyIsPrefixOfData l (l ++ r) = true := by
  induction l with
  | nil => rfl
  | cons a t ih => simp [pyIsPrefixOfData, ih]

theorem simple_update_no_probes (e : Env) :
    Cmd.remoteV ∉ (simple_update e).2 ∧ Cmd.branchAll ∉ (simple_update e).2 := by
  unfold simple_update
  rcases e.rev_before with u | prev
  · simp
  · by_cases hp : e.pull_exit ≠ 0
    · simp [hp]
    · rcases e.rev_after with u | cur <;> simp [hp]

/-- Claim C1: the claim asserts that `synchronize` never lets an
exception escape, in particular not from the remote-listing probe, the
branch-listing probe, or the pre-update head-revision query.  The code
violates all three: the pre-update `rev-list` query (line 161) is an
uncaught `check_output`, so its `CalledProcessError` escapes; a
remote-tracking entry in the branch listing reaches line 117's
`blist.split("/")`, raising `AttributeError` on a `list`; and the
remote-listing parse indexes `rlist[0]` of an empty line (line 143),
raising `IndexError`.  This theorem evaluates `update` at one concrete
environment per probe and shows the escaped error in each case. -/
theorem c1_exception_escapes_synchronize :
    update repoBase { envBase with rev_before := .error () } =
      (.error .calledProcessError, [Cmd.revList])
    ∧ update { repoBase with auto_sync_enforcing := some "yes", sync_uri := none, sync_branch := some "master" }
        { envBase with branch_listing := .ok "remotes/origin/master" } =
      (.error .attributeError, [Cmd.branchAll])
    ∧ update { repoBase with auto_sync_enforcing := some "yes" }
        { envBase with remote_listing := .ok "" } =
      (.error .indexError, [Cmd.remoteV]) :=
  ⟨by decide, by decide, by decide⟩

/-- Claim C2: the claim asserts that a remote-tracking entry whose
branch-name component equals `syncBranch` leads to a tracking-branch
creation followed by Update.  In the code, any remote-tracking entry
(contains `/`, is not the remote `HEAD` pointer) executes line 117,
`branchl = blist.split("/")`, where `blist` is a `list` — a `list` has
no `split` method, so `AttributeError` is raised and neither the
tracking-branch creation (lines 119-126) nor any update runs.  The
embedded `sync_branch_update` is evaluated here at such a listing: the
outcome is the escaped `AttributeError`, with only the branch-listing
probe issued. -/
theorem c2_remote_tracking_branch_raises :
    sync_branch_update (some "master")
        { envBase with branch_listing := .ok "  remotes/origin/master" } =
      (.error .attributeError, [Cmd.branchAll]) := by decide

/-- Claim C3, counterexample: with a failing branch-listing probe, the
code returns `(os.EX_NOTFOUND, True)` directly (line 101) — it does
not "still perform a plain Update" as the claim states: no `git pull`
is issued, and the outcome differs from the Update outcome `(0, false)`
the same environment would produce. -/
theorem c3_counterexample :
    sync_branch_update (some "master") { envBase with branch_listing := .error () } =
      (.ok (os_EX_NOTFOUND, true), [Cmd.branchAll])
    ∧ simple_update { envBase with branch_listing := .error () } =
      (.ok (0, false), [Cmd.revList, Cmd.pull, Cmd.revList])
    ∧ os_EX_NOTFOUND ≠ 0
    ∧ Cmd.pull ∉ [Cmd.branchAll] :=
  ⟨by decide, by decide, by decide, by decide⟩

/-- Claim C3, amended: if the branch-listing probe command itself
fails, branch reconciliation skips the branch switch and does not
perform an Update at all; it returns the reserved not-found outcome
`(os.EX_NOTFOUND, changed=True)` directly, and the probe's own failure
code is never propagated as a hard failure of the overall sync. -/
theorem c3_amended (sb : Option String) (e : Env) :
    sync_branch_update sb { e with branch_listing := .error () } =
      (.ok (os_EX_NOTFOUND, true), [Cmd.branchAll]) := rfl

/-- Claim C4, counterexample: for `syncUri = "file:///r"` the remainder
after the seven-character prefix `"file://"` is `"/r"`, but the slice
`sync_uri[6:]` (line 50) drops only six characters, so the clone
command receives `"//r"`. -/
theorem c4_counterexample :
    new_git_cmd false none [] none "file:///r" = ["git", "clone", "//r", "."]
    ∧ strip_file_uri "file:///r" = "//r"
    ∧ "//r" ≠ ("/r" : String) :=
  ⟨by decide, by decide, by decide⟩

/-- Claim C4, amended: for every `syncUri` that begins with
`"file://"`, the clone command passes the URI with its first six
characters (`"file:/"`) removed — that is, `"/"` followed by the
remainder of the string after the full `"file://"` prefix. -/
theorem c4_amended (quiet : Bool) (depth : Option Nat) (extra : List String)
    (branch : Option String) (rest : List Char) :
    strip_file_uri (String.mk ("file://".data ++ rest)) = String.mk ('/' :: rest)
    ∧ new_git_cmd quiet depth extra branch (String.mk ("file://".data ++ rest)) =
        ["git", "clone"] ++ git_clone_opts quiet depth extra branch ++
          [String.mk ('/' :: rest), "."] := by
  have h1 : pyStartswith (String.mk ("file://".data ++ rest)) "file://" = true :=
    pyIsPrefixOfData_append_self "file://".data rest
  have h2 : String.mk (("file://".data ++ rest).drop 6) = String.mk ('/' :: rest) := rfl
  have hs : strip_file_uri (String.mk ("file://".data ++ rest)) = String.mk ('/' :: rest) := by
    unfold strip_file_uri
    simp only [h1]
    simp
  exact ⟨hs, by simp only [new_git_cmd, hs]⟩

/-- Claim C5, counterexample: when the `git remote -v` command itself
fails, `sync_uri_check` returns `False` (line 140), the very value of a
mismatch — not a distinct "unknown" sentinel (`None`); when the
listing holds no "origin"/"(fetch)" entry, scanning reaches a line with
too few fields (here the empty listing's single empty line) and raises
`IndexError` instead of returning the sentinel; and with two
origin/fetch entries of which only the second matches, the verifier
returns `False` at the first, so "true iff there exists a matching
entry" fails as well. -/
theorem c5_counterexample :
    sync_uri_check "u" (.error ()) = .ok (some false)
    ∧ sync_uri_check "u" (.error ()) ≠ .ok none
    ∧ sync_uri_check "u" (.ok "") = .error .indexError
    ∧ sync_uri_check "u" (.ok "origin\tx (fetch)\norigin\tu (fetch)\n") = .ok (some false) :=
  ⟨by decide, by decide, by decide, by decide⟩

/-- Claim C5, amended: the URI verifier scans the listing lines in
order and, at the first line whose first field is `"origin"` and third
field is `"(fetch)"`, returns whether `syncUri` equals that line's
second field byte-for-byte; a line whose first field is not `"origin"`
is skipped; when the listing command itself fails the verifier returns
`False` — the same value as a mismatch, which the caller treats as not
matching; a scanned line with no field, or with first field `"origin"`
but fewer than three fields, raises `IndexError`; only a scan that
exhausts the lines returns the `None` sentinel. -/
theorem c5_amended (u a r0 : String) (l : String) (rest : List String) :
    sync_uri_check u (.error ()) = .ok (some false)
    ∧ (pySplit l = ["origin", a, "(fetch)"] →
        sync_uri_check_lines u (l :: rest) = .ok (some (u == a)))
    ∧ ((pySplit l)[0]? = some r0 → r0 ≠ "origin" →
        sync_uri_check_lines u (l :: rest) = sync_uri_check_lines u rest)
    ∧ (pySplit l = [] → sync_uri_check_lines u (l :: rest) = .error .indexError)
    ∧ (pySplit l = ["origin"] → sync_uri_check_lines u (l :: rest) = .error .indexError)
    ∧ (pySplit l = ["origin", a] → sync_uri_check_lines u (l :: rest) = .error .indexError)
    ∧ sync_uri_check_lines u [] = .ok none := by
  refine ⟨rfl, ?_, ?_, ?_, ?_, ?_, rfl⟩
  · intro h; simp [sync_uri_check_lines, h]
  · intro h0 hr; simp [sync_uri_check_lines, h0, hr]
  · intro h; simp [sync_uri_check_lines, h]
  · intro h; simp [sync_uri_check_lines, h]
  · intro h; simp [sync_uri_check_lines, h]

/-- Witness for `c5_amended` at concrete listings. -/
theorem c5_amended_witness :
    sync_uri_check_lines "u" ["origin\tu (fetch)"] = .ok (some ("u" == "u"))
    ∧ sync_uri_check_lines "u" ["a b c"] = sync_uri_check_lines "u" []
    ∧ sync_uri_check_lines "u" [""] = .error .indexError
    ∧ sync_uri_check_lines "u" ["origin"] = .error .indexError
    ∧ sync_uri_check_lines "u" ["origin u"] = .error .indexError :=
  ⟨(c5_amended "u" "u" "a" "origin\tu (fetch)" []).2.1 (by decide),
   (c5_amended "u" "u" "a" "a b c" []).2.2.1 (by decide) (by decide),
   (c5_amended "u" "u" "a" "" []).2.2.2.1 (by decide),
   (c5_amended "u" "u" "a" "origin" []).2.2.2.2.1 (by decide),
   (c5_amended "u" "u" "a" "origin u" []).2.2.2.2.2.1 (by decide)⟩

/-- Claim C6: on the update path, a non-zero pull exit (any `code + 1`)
yields the outcome `(that exit code, changed = False)` with no second
head-revision query issued (the trace ends at the pull); a zero pull
exit yields success with `changed = (post-revision != pre-revision)`,
and that boolean is true exactly when the two revision strings
differ. -/
theorem c6_update_outcome (e : Env) (prev cur : String) (code : Nat) :
    simple_update { e with rev_before := .ok prev, pull_exit := code + 1 } =
      (.ok (code + 1, false), [Cmd.revList, Cmd.pull])
    ∧ simple_update { e with rev_before := .ok prev, pull_exit := 0, rev_after := .ok cur } =
      (.ok (0, cur != prev), [Cmd.revList, Cmd.pull, Cmd.revList])
    ∧ ((cur != prev) = true ↔ cur ≠ prev) := by
  refine ⟨?_, ?_, ?_⟩
  · simp [simple_update]
  · simp [simple_update]
  · exact bne_iff_ne

/-- Claim C7: the clone command is exactly the spec's fixed grammar
`git clone [--quiet] [--depth N --no-single-branch] [extra] [-b branch]
<uri> .` (with the bracketed groups present exactly when the
corresponding field is configured); whenever a depth is set the
`--depth N` tokens are immediately followed by `--no-single-branch`;
and the command ends with the URI and the current-directory target
`"."`. -/
theorem c7_clone_cmd_grammar (quiet : Bool) (depth : Option Nat) (extra : List String)
    (branch : Option String) (uri : String) (n : Nat) :
    new_git_cmd quiet depth extra branch uri =
      clone_cmd_spec quiet depth extra branch (strip_file_uri uri)
    ∧ (∃ l1 l2, new_git_cmd quiet (some n) extra branch uri =
        l1 ++ ["--depth", toString n, "--no-single-branch"] ++ l2)
    ∧ (∃ l0, new_git_cmd quiet depth extra branch uri = l0 ++ [strip_file_uri uri, "."]) := by
  refine ⟨?_, ?_, ?_⟩
  · simp [new_git_cmd, clone_cmd_spec, git_clone_opts, List.append_assoc]
  · refine ⟨["git", "clone"] ++ (if quiet then ["--quiet"] else []),
      extra ++ (match branch with | some b => ["-b", b] | none => []) ++
        [strip_file_uri uri, "."], ?_⟩
    simp [new_git_cmd, git_clone_opts, List.append_assoc]
  · exact ⟨["git", "clone"] ++ git_clone_opts quiet depth extra branch,
      by simp [new_git_cmd, List.append_assoc]⟩

/-- Claim C8: with enforcement on (`auto_sync_enforcing` set to any
value other than `"no"`/unset), `sync_uri` and `location` both set, and
the URI verifier reporting anything other than `True` (mismatch `False`
or the `None` sentinel), `update` destroys the mirror and returns
`new`'s outcome; the second conjunct shows the same with a failing
removal (`rm` exit `rc + 1`): the nuke result is discarded and the
clone still runs and still decides the outcome. -/
theorem c8_mismatch_nuke_reclone (r : Repo) (e : Env) (u loc ev : String)
    (v : Option Bool) (rc : Nat) (hev : ev ≠ "no")
    (hv : sync_uri_check u e.remote_listing = .ok v) (hvt : v ≠ some true) :
    update { r with auto_sync_enforcing := some ev, sync_uri := some u, location := some loc } e =
      ((new_outcome e).1, Cmd.remoteV :: ((nuke_repo e).2 ++ (new_outcome e).2))
    ∧ update { r with auto_sync_enforcing := some ev, sync_uri := some u, location := some loc }
        { e with rm_exit := rc + 1 } =
      ((new_outcome e).1, Cmd.remoteV :: (Cmd.rmrf :: (new_outcome e).2)) := by
  constructor
  · simp [update, hev, hv, hvt]
  · have hv' : sync_uri_check u ({ e with rm_exit := rc + 1 } : Env).remote_listing = .ok v := hv
    simp [update, hev, hv', hvt, nuke_repo, new_outcome]

/-- Witness for `c8_mismatch_nuke_reclone`: a concrete mismatching
remote listing, with a succeeding and a failing removal. -/
theorem c8_mismatch_nuke_reclone_witness :
    update { repoBase with auto_sync_enforcing := some "yes", sync_uri := some "u", location := some "/m" }
        { envBase with remote_listing := .ok "origin\tw (fetch)\n" } =
      ((new_outcome { envBase with remote_listing := .ok "origin\tw (fetch)\n" }).1,
        Cmd.remoteV :: ((nuke_repo { envBase with remote_listing := .ok "origin\tw (fetch)\n" }).2 ++
          (new_outcome { envBase with remote_listing := .ok "origin\tw (fetch)\n" }).2))
    ∧ update { repoBase with auto_sync_enforcing := some "yes", sync_uri := some "u", location := some "/m" }
        { envBase with remote_listing := .ok "origin\tw (fetch)\n", rm_exit := 0 + 1 } =
      ((new_outcome { envBase with remote_listing := .ok "origin\tw (fetch)\n" }).1,
        Cmd.remoteV :: (Cmd.rmrf :: (new_outcome { envBase with remote_listing := .ok "origin\tw (fetch)\n" }).2)) :=
  c8_mismatch_nuke_reclone repoBase { envBase with remote_listing := .ok "origin\tw (fetch)\n" }
    "u" "/m" "yes" (some false) 0 (by decide) (by decide) (by decide)

/-- Claim C9: with `auto_sync_enforcing` equal to `"no"` or unset,
`update` is exactly `simple_update`, whose command trace never contains
the remote-listing probe (`git remote -v`) or the branch-listing probe
(`git branch --all`), whatever the descriptor's `sync_uri` and
`sync_branch` hold. -/
theorem c9_trust_no_probes (r : Repo) (e : Env) :
    update { r with auto_sync_enforcing := some "no" } e = simple_update e
    ∧ update { r with auto_sync_enforcing := none } e = simple_update e
    ∧ Cmd.remoteV ∉ (simple_update e).2
    ∧ Cmd.branchAll ∉ (simple_update e).2 :=
  ⟨by simp [update], by simp [update], (simple_update_no_probes e).1,
    (simple_update_no_probes e).2⟩

theorem sync_branch_update_lines_no_remoteV (sb : Option String) (e : Env) (ls : List String) :
    Cmd.remoteV ∉ (sync_branch_update_lines sb e ls).2 := by
  induction ls with
  | nil => exact (simple_update_no_probes e).1
  | cons l rest ih =>
    simp only [sync_branch_update_lines]
    split
    · simp
    · split
      · split
        · simp
        · split
          · exact (simple_update_no_probes e).1
          · exact ih
      · split
        · split
          · intro hmem
            rcases List.mem_cons.mp hmem with h | h
            · exact Cmd.noConfusion h
            · exact (simple_update_no_probes e).1 h
          · exact ih
        · split
          · simp
          · exact ih

theorem sync_branch_update_no_remoteV (sb : Option String) (e : Env) :
    Cmd.remoteV ∉ (sync_branch_update sb e).2 := by
  unfold sync_branch_update
  rcases e.branch_listing with u | raw
  · simp
  · intro hmem
    rcases List.mem_cons.mp hmem with h | h
    · exact Cmd.noConfusion h
    · exact sync_branch_update_lines_no_remoteV sb e _ h

/-- Claim C10: with enforcement on, a URI verification that returns
`True` does not end the operation — `update` falls through to the
branch stage, running `sync_branch_update` when `sync_branch` is set
and `simple_update` when it is not (the remote-listing probe prefixed
to the trace); when `sync_uri` is unset the URI check is skipped
entirely (no remote-listing probe anywhere in the trace) and the branch
stage still runs; when `location` is unset both guards fail and a plain
`simple_update` runs. -/
theorem c10_enforcing_fallthrough (r : Repo) (e : Env) (u loc b ev : String)
    (hev : ev ≠ "no") (hok : sync_uri_check u e.remote_listing = .ok (some true)) :
    update { r with auto_sync_enforcing := some ev, sync_uri := some u, location := some loc, sync_branch := some b } e =
      ((sync_branch_update (some b) e).1, Cmd.remoteV :: (sync_branch_update (some b) e).2)
    ∧ update { r with auto_sync_enforcing := some ev, sync_uri := some u, location := some loc, sync_branch := none } e =
      ((simple_update e).1, Cmd.remoteV :: (simple_update e).2)
    ∧ update { r with auto_sync_enforcing := some ev, sync_uri := none, location := some loc, sync_branch := some b } e =
      sync_branch_update (some b) e
    ∧ Cmd.remoteV ∉ (update { r with auto_sync_enforcing := some ev, sync_uri := none, location := some loc, sync_branch := some b } e).2
    ∧ update { r with auto_sync_enforcing := some ev, sync_uri := none, location := some loc, sync_branch := none } e =
      simple_update e
    ∧ update { r with auto_sync_enforcing := some ev, location := none } e = simple_update e := by
  refine ⟨?_, ?_, ?_, ?_, ?_, ?_⟩
  · simp [update, hev, hok, update_tail]
  · simp [update, hev, hok, update_tail]
  · simp [update, hev, update_tail]
  · have h3 : update { r with auto_sync_enforcing := some ev, sync_uri := none, location := some loc, sync_branch := some b } e =
        sync_branch_update (some b) e := by simp [update, hev, update_tail]
    rw [h3]
    exact sync_branch_update_no_remoteV (some b) e
  · simp [update, hev, update_tail]
  · simp [update, hev, update_tail]

/-- Witness for `c10_enforcing_fallthrough`: a concrete matching remote
listing with a configured branch. -/
theorem c10_enforcing_fallthrough_witness :
    update { repoBase with auto_sync_enforcing := some "yes", sync_uri := some "u", location := some "/m", sync_branch := some "master" }
        { envBase with remote_listing := .ok "origin\tu (fetch)\norigin\tu (push)\n" } =
      ((sync_branch_update (some "master") { envBase with remote_listing := .ok "origin\tu (fetch)\norigin\tu (push)\n" }).1,
        Cmd.remoteV :: (sync_branch_update (some "master") { envBase with remote_listing := .ok "origin\tu (fetch)\norigin\tu (push)\n" }).2) :=
  (c10_enforcing_fallthrough repoBase
    { envBase with remote_listing := .ok "origin\tu (fetch)\norigin\tu (push)\n" }
    "u" "/m" "master" "yes" (by decide) (by decide)).1


end GitSync
